import Mathlib

/-!
Verification of the workflow-orchestration layer of the TF ChIP-seq / Quant-seq
pipelines (`pipelines/chipseq.py`, `pipelines/quantseq.py`).

The two `process` functions are straight-line stage sequencers: each stage
builds a toolkit command and hands it to the runner (`pipe.call_lock`), with a
lock target path or an explicit lock name, and an optional failure-tolerance
flag (`nofail`).  We embed a run as the list of observable runner events it
performs (timestamps, locked command invocations, cleanup registrations,
directory creation, track-hub linking, pipeline finalization) together with
the final `Sample` state and an outcome (normal completion, the early exit
taken when a ChIP-seq sample has no `ctrl` association, or the
`NotImplementedError` raised by the zinba peak-caller branch).

Toolkit command builders are opaque collaborators, embedded as constructors of
`Cmd` recording exactly the arguments the call sites pass.  The one command
whose construction lives in this repository, the local `trimmomatic` string
builder of `quantseq.py`, is embedded as a string-building function.
-/

/-- Per-sample directory layout (`sample.dirs.*`). -/
structure Dirs where
  sampleRoot : String
  unmapped : String
  peaks : String
  mapped : String
  quant : String
deriving DecidableEq

/-- The fields of a control sample that `chipseq.process` dereferences
(`sample.ctrl.filtered`, `sample.ctrl.sampleName`). -/
structure Ctrl where
  sampleName : String
  filtered : String
deriving DecidableEq

/-- `sample.unmappedBam` is either a single path or a list of paths
(technical replicates); the code branches on `type(sample.unmappedBam) == list`. -/
inductive BamInput where
  | single (path : String)
  | multiple (paths : List String)
deriving DecidableEq

/-- The sample configuration flags and file-path slots, as dereferenced by the
two `process` functions.  `ctrl` models the dynamic presence of the `ctrl`
attribute (`hasattr(sample, "ctrl")`). -/
structure Sample where
  name : String
  paired : Bool
  tagmented : Bool
  histone : Bool
  broad : Bool
  genome : String
  readLength : Nat
  unmappedBam : BamInput
  unmapped : String
  fastq : String
  fastq1 : String
  fastq2 : String
  fastqUnpaired : String
  trimmed : String
  trimmed1 : String
  trimmed1Unpaired : String
  trimmed2 : String
  trimmed2Unpaired : String
  trimlog : String
  mapped : String
  alnRates : String
  alnMetrics : String
  filtered : String
  dupsMetrics : String
  filteredshifted : String
  bigwig : String
  trackURL : String
  trackColour : String
  coverage : String
  qc : String
  qcPlot : String
  peaks : String
  motifsDir : String
  peaksMotifCentered : String
  peaksMotifAnnotated : String
  frip : String
  erccMapped : String
  erccAlnRates : String
  erccAlnMetrics : String
  erccFiltered : String
  erccDupsMetrics : String
  quant : String
  erccQuant : String
  pseudomapped : String
  kallistoQuant : String
  dirs : Dirs
  ctrl : Option Ctrl
deriving DecidableEq

/-- Project-level configuration (`prj.config`, `prj.dirs`, `prj.name`).
Per-genome annotation maps are embedded as functions from genome key to path. -/
structure Project where
  name : String
  url : String
  adapters : String
  genomes : String → String
  chrsizes : String → String
  genomewindows : String → String
  tss : String → String
  transcriptomes : String → String
  kallistoindex : String → String
  peakwindowwidth : Nat
  dirsRoot : String
  dirsResults : String
  dirsHtml : String

/-- Run-level options (the deserialized argparse namespace). -/
structure Args where
  trimmer : String
  peak_caller : String
  cpus : Nat
  quality : Nat
  maxinsert : Nat
  dry_run : Bool
deriving DecidableEq

/-- Toolkit commands, one constructor per toolkit call site, recording exactly
the arguments passed there.  `shellCmd` wraps a command string built inside
this repository (the local `trimmomatic` of `quantseq.py`). -/
inductive Cmd where
  | mergeBams (inputBams : List String) (outputBam : String)
  | fastqc (inputBam outputDir sampleName : String)
  | bam2fastq (inputBam outputFastq : String) (outputFastq2 unpairedFastq : Option String)
  | trimmomatic (inputFastq1 : String) (inputFastq2 : Option String)
      (outputFastq1 : String) (outputFastq1unpaired outputFastq2 outputFastq2unpaired : Option String)
      (cpus : Nat) (adapters log : String)
  | skewer (inputFastq1 : String) (inputFastq2 : Option String) (outputBase : String)
      (outputFastq1 : String) (outputFastq2 : Option String) (trimLog : String)
      (cpus : Nat) (adapters : String)
  | bowtie2Map (inputFastq1 : String) (inputFastq2 : Option String)
      (outputBam log metrics genomeIndex : String) (maxInsert cpus : Nat)
  | filterReads (inputBam outputBam metricsFile : String) (paired : Bool) (cpus q : Nat)
  | shiftReads (inputBam genome outputBam : String)
  | indexBam (inputBam : String)
  | bamToBigWig (inputBam outputBigWig genomeSizes genome : String) (tagmented normalize : Bool)
  | addTrackToHub (sampleName trackURL trackHub colour : String)
  | genomeWideCoverage (inputBam genomeWindows output : String)
  | peakTools (inputBam output plot : String) (cpus : Nat)
  | macs2CallPeaks (treatmentBam controlBam outputDir sampleName genome : String) (broad : Bool)
  | macs2PlotModel (sampleName outputDir : String)
  | sppCallPeaks (treatmentBam controlBam treatmentName controlName outputDir : String)
      (broad : Bool) (cpus : Nat)
  | homerFindMotifs (peakFile genome outputDir size lengths : String) (n_motifs : Nat)
  | centerPeaksOnMotifs (peakFile genome : String) (windowWidth : Nat) (motifFile outputBed : String)
  | AnnotatePeaks (peakFile genome motifFile outputBed : String)
  | peakAnalysis (inputBam peakFile plotsDir : String) (windowWidth fragmentsize : Nat)
      (genome : String) (n_clusters : Nat) (strand_specific duplicates : Bool)
  | tssAnalysis (inputBam tssFile plotsDir : String) (windowWidth fragmentsize : Nat)
      (genome : String) (n_clusters : Nat) (strand_specific duplicates : Bool)
  | calculateFRiP (inputBam inputBed output : String)
  | topHatMap (inputFastq outDir genome transcriptome : String) (cpus : Nat)
  | sortIndexBam (inputBam outputBam : String)
  | htSeqCount (inputBam gtf output : String)
  | kallisto (inputFastq : String) (inputFastq2 : Option String)
      (outputDir outputBam transcriptomeIndex : String) (cpus : Nat)
  | shellCmd (cmd : String)
deriving DecidableEq

/-- Observable runner events emitted by a `process` run, in order. -/
inductive Event where
  | timestamp (label : String)
  | callLock (cmd : Cmd) (lockTarget : Option String) (lockName : Option String) (nofail : Bool)
  | cleanAdd (path : String) (conditional : Bool)
  | makedirs (dir : String)
  | linkToTrackHub (trackHubURL fileName genome : String)
  | stopPipeline
deriving DecidableEq

/-- How a `process` run ends: the ChIP-seq early return for samples without a
`ctrl` association, normal completion through `pipe.stop_pipeline()`, or the
`NotImplementedError` raised by the zinba branch. -/
inductive Outcome where
  | earlyExit
  | completed
  | notImplementedError (msg : String)
deriving DecidableEq

/-- Result of one `process` invocation: emitted events, final sample state,
and the outcome. -/
structure Run where
  events : List Event
  sample : Sample
  outcome : Outcome
deriving DecidableEq

/-- `os.path.join` for the paths this code joins (no absolute-path overriding
arises at these call sites). -/
def pathJoin (a b : String) : String := a ++ "/" ++ b

/-- Python string formatting of a possibly-absent value (`"{0}".format(x)`
prints `None` for `None`). -/
def pyStr : Option String → String
  | some x => x
  | none => "None"

/-- The local `trimmomatic` command builder of `quantseq.py` (lines 229-249),
translated literally. -/
def trimmomatic (inputFastq1 outputFastq1 : String) (cpus : Nat) (adapters log : String)
    (inputFastq2 : Option String) (outputFastq1unpaired : Option String)
    (outputFastq2 : Option String) (outputFastq2unpaired : Option String) : String :=
  let PE : Bool := inputFastq2.isSome
  let pe : String := if PE then "PE" else "SE"
  let cmd0 := "java -Xmx4g -jar `which trimmomatic-0.32.jar`"
  let cmd1 := cmd0 ++ " " ++ pe ++ " -threads " ++ toString cpus ++ " -trimlog " ++ log
      ++ " " ++ inputFastq1
  let cmd2 := if PE then cmd1 ++ " " ++ pyStr inputFastq2 else cmd1
  let cmd3 := cmd2 ++ " " ++ outputFastq1
  let cmd4 := if PE then
      cmd3 ++ " " ++ pyStr outputFastq1unpaired ++ " " ++ pyStr outputFastq2 ++ " "
        ++ pyStr outputFastq2unpaired
    else cmd3
  cmd4 ++ " ILLUMINACLIP:" ++ adapters ++ ":1:40:15:8:true"
    ++ " HEADCROP:12" ++ " TRAILING:3" ++ " SLIDINGWINDOW:4:10" ++ " MINLEN:36"

/-- Events of the merge-replicates block (`if type(sample.unmappedBam) == list`). -/
def mergeEvents (s : Sample) : List Event :=
  match s.unmappedBam with
  | BamInput.multiple ps =>
      [Event.timestamp "Merging bam files from replicates",
       Event.callLock (Cmd.mergeBams ps s.unmapped) (some s.unmapped) none false]
  | BamInput.single _ => []

/-- The value of `sample.unmappedBam` after the merge block: the merged path
if the merge ran, the original single path otherwise. -/
def afterMergeBam (s : Sample) : String :=
  match s.unmappedBam with
  | BamInput.multiple _ => s.unmapped
  | BamInput.single p => p

/-- The sample after the merge block: `unmappedBam` is mutated in place to the
single merged path exactly when the merge ran. -/
def afterMergeSample (s : Sample) : Sample :=
  match s.unmappedBam with
  | BamInput.multiple _ => { s with unmappedBam := BamInput.single s.unmapped }
  | BamInput.single _ => s

/-- Fastqc stage events (shared verbatim by both pipelines). -/
def fastqcEvents (s : Sample) (bam : String) : List Event :=
  [Event.timestamp "Measuring sample quality with Fastqc",
   Event.callLock (Cmd.fastqc bam s.dirs.sampleRoot s.name)
     (some (pathJoin s.dirs.sampleRoot (s.name ++ "_fastqc.zip"))) none false]

/-- Bam-to-fastq conversion stage events, including the conditional cleanup
registrations (shared verbatim by both pipelines). -/
def bam2fastqEvents (s : Sample) (bam : String) : List Event :=
  [Event.timestamp "Converting to Fastq format",
   Event.callLock
     (Cmd.bam2fastq bam (if s.paired then s.fastq1 else s.fastq)
       (if s.paired then some s.fastq2 else none)
       (if s.paired then some s.fastqUnpaired else none))
     (some (if s.paired then s.fastq1 else s.fastq)) none false] ++
  (if s.paired then [] else [Event.cleanAdd s.fastq true]) ++
  (if s.paired then
     [Event.cleanAdd s.fastq1 true, Event.cleanAdd s.fastq2 true,
      Event.cleanAdd s.fastqUnpaired true]
   else [])

/-- The ChIP-seq trim branch (`chipseq.py` lines 113-150): trimmomatic or
skewer selected by `args.trimmer`; any other value runs neither. -/
def chipseqTrim (args : Args) (prj : Project) (s : Sample) : List Event :=
  if args.trimmer = "trimmomatic" then
    [Event.callLock
       (Cmd.trimmomatic (if s.paired then s.fastq1 else s.fastq)
         (if s.paired then some s.fastq2 else none)
         (if s.paired then s.trimmed1 else s.trimmed)
         (if s.paired then some s.trimmed1Unpaired else none)
         (if s.paired then some s.trimmed2 else none)
         (if s.paired then some s.trimmed2Unpaired else none)
         args.cpus prj.adapters s.trimlog)
       (some (if s.paired then s.trimmed1 else s.trimmed)) none false] ++
    (if s.paired then
       [Event.cleanAdd s.trimmed1 true, Event.cleanAdd s.trimmed1Unpaired true,
        Event.cleanAdd s.trimmed2 true, Event.cleanAdd s.trimmed2Unpaired true]
     else [Event.cleanAdd s.trimmed true])
  else if args.trimmer = "skewer" then
    [Event.callLock
       (Cmd.skewer (if s.paired then s.fastq1 else s.fastq)
         (if s.paired then some s.fastq2 else none)
         (pathJoin s.dirs.unmapped s.name)
         (if s.paired then s.trimmed1 else s.trimmed)
         (if s.paired then some s.trimmed2 else none)
         s.trimlog args.cpus prj.adapters)
       (some (if s.paired then s.trimmed1 else s.trimmed)) none false] ++
    (if s.paired then [Event.cleanAdd s.trimmed1 true, Event.cleanAdd s.trimmed2 true]
     else [Event.cleanAdd s.trimmed true])
  else []

/-- ChIP-seq Bowtie2 mapping stage events. -/
def chipseqMapEvents (args : Args) (prj : Project) (s : Sample) : List Event :=
  [Event.timestamp "Mapping reads with Bowtie2",
   Event.callLock
     (Cmd.bowtie2Map (if s.paired then s.trimmed1 else s.trimmed)
       (if s.paired then some s.trimmed2 else none)
       s.mapped s.alnRates s.alnMetrics (prj.genomes s.genome) args.maxinsert args.cpus)
     (some s.mapped) none false,
   Event.cleanAdd s.mapped true]

/-- ChIP-seq filter stage events. -/
def chipseqFilterEvents (args : Args) (s : Sample) : List Event :=
  [Event.timestamp "Filtering reads for quality",
   Event.callLock
     (Cmd.filterReads s.mapped s.filtered s.dupsMetrics s.paired args.cpus args.quality)
     (some s.filtered) none false]

/-- Shift-reads stage events (tagmented samples only). -/
def shiftEvents (s : Sample) : List Event :=
  if s.tagmented then
    [Event.timestamp "Shifting reads of tagmented sample",
     Event.callLock (Cmd.shiftReads s.filtered s.genome s.filteredshifted)
       (some s.filteredshifted) none false]
  else []

/-- Index stage events (mapped, filtered, and conditionally shifted bams). -/
def indexEvents (s : Sample) : List Event :=
  [Event.timestamp "Indexing bamfiles with samtools",
   Event.callLock (Cmd.indexBam s.mapped) (some (s.mapped ++ ".bai")) none false,
   Event.callLock (Cmd.indexBam s.filtered) (some (s.filtered ++ ".bai")) none false] ++
  (if s.tagmented then
     [Event.callLock (Cmd.indexBam s.filteredshifted)
       (some (s.filteredshifted ++ ".bai")) none false]
   else [])

/-- Track-generation stage events: bigWig creation, the hub append (locked by
`sample.name + "addToTrackHub"`), and the UCSC link file. -/
def trackEvents (prj : Project) (s : Sample) : List Event :=
  [Event.timestamp "Making bigWig tracks from bam file",
   Event.callLock
     (Cmd.bamToBigWig s.filtered s.bigwig (prj.chrsizes s.genome) s.genome false true)
     (some s.bigwig) none false,
   Event.callLock
     (Cmd.addTrackToHub s.name s.trackURL
       (pathJoin prj.dirsHtml ("trackHub_" ++ s.genome ++ ".txt")) s.trackColour)
     none (some (s.name ++ "addToTrackHub")) false,
   Event.linkToTrackHub
     (prj.url ++ "/" ++ prj.name ++ "/" ++ ("trackHub_" ++ s.genome ++ ".txt"))
     (pathJoin prj.dirsRoot ("ucsc_tracks_" ++ s.genome ++ ".html")) s.genome]

/-- Genome-wide coverage stage events. -/
def coverageEvents (prj : Project) (s : Sample) : List Event :=
  [Event.timestamp "Calculating genome-wide coverage",
   Event.callLock
     (Cmd.genomeWideCoverage s.filtered (prj.genomewindows s.genome) s.coverage)
     (some s.coverage) none false]

/-- Signal/noise QC stage events (NSC/RSC); the one `nofail` call before the
early-exit gate. -/
def qcEvents (args : Args) (s : Sample) : List Event :=
  [Event.timestamp "Assessing signal/noise in sample",
   Event.callLock (Cmd.peakTools s.filtered s.qc s.qcPlot args.cpus)
     (some s.qcPlot) none true]

/-- Everything `chipseq.process` does before the `ctrl` gate (lines 76-241),
on the original sample. -/
def chipseqPre (args : Args) (prj : Project) (s : Sample) : List Event :=
  mergeEvents s ++
  fastqcEvents (afterMergeSample s) (afterMergeBam s) ++
  bam2fastqEvents (afterMergeSample s) (afterMergeBam s) ++
  [Event.timestamp "Trimming adapters from sample"] ++
  chipseqTrim args prj (afterMergeSample s) ++
  chipseqMapEvents args prj (afterMergeSample s) ++
  chipseqFilterEvents args (afterMergeSample s) ++
  shiftEvents (afterMergeSample s) ++
  indexEvents (afterMergeSample s) ++
  trackEvents prj (afterMergeSample s) ++
  coverageEvents prj (afterMergeSample s) ++
  qcEvents args (afterMergeSample s)

/-- The peak-calling branch (`chipseq.py` lines 248-305).  `none` encodes the
zinba branch raising `NotImplementedError` before issuing any command; any
peak-caller value other than macs2/spp/zinba matches no branch and falls
through having done nothing. -/
def peakCallEvents (args : Args) (s : Sample) (c : Ctrl) : Option (List Event) :=
  if args.peak_caller = "macs2" then some
    [Event.timestamp "Calling peaks with MACS2",
     Event.makedirs s.dirs.peaks,
     Event.callLock
       (Cmd.macs2CallPeaks s.filtered c.filtered s.dirs.peaks s.name s.genome
         (if s.broad then true else false))
       (some s.peaks) none false,
     Event.timestamp "Ploting MACS2 model",
     Event.callLock (Cmd.macs2PlotModel s.name (pathJoin s.dirs.peaks s.name))
       (some (pathJoin (pathJoin s.dirs.peaks s.name) (s.name ++ "_model.pdf"))) none false]
  else if args.peak_caller = "spp" then some
    [Event.timestamp "Calling peaks with spp",
     Event.callLock
       (Cmd.sppCallPeaks s.filtered c.filtered s.name c.sampleName
         (pathJoin s.dirs.peaks s.name) (if s.broad then true else false) args.cpus)
       (some s.peaks) none false]
  else if args.peak_caller = "zinba" then none
  else some []

/-- Motif-discovery stage events (`chipseq.py` lines 307-340): one homer
search for histone samples, two (self + co-binders) for TF samples. -/
def motifEvents (s : Sample) : List Event :=
  [Event.timestamp "Finding motifs"] ++
  (if s.histone then
     [Event.callLock
       (Cmd.homerFindMotifs s.peaks s.genome s.motifsDir "1000" "8,10,12,14,16" 20)
       (some (pathJoin (pathJoin s.motifsDir "homerResults") "motif1.motif")) none false]
   else
     [Event.callLock
       (Cmd.homerFindMotifs s.peaks s.genome s.motifsDir "50" "8,10,12,14,16" 8)
       (some (pathJoin (pathJoin s.motifsDir "homerResults") "motif1.motif")) none false,
      Event.callLock
       (Cmd.homerFindMotifs s.peaks s.genome (s.motifsDir ++ "_cobinders") "200"
         "8,10,12,14,16" 12)
       (some (pathJoin (pathJoin (s.motifsDir ++ "_cobinders") "homerResults") "motif1.motif"))
       none false])

/-- Peak motif-centering and annotation stage events. -/
def centerAnnotateEvents (prj : Project) (s : Sample) : List Event :=
  [Event.timestamp "Centering peak in motifs",
   Event.callLock
     (Cmd.centerPeaksOnMotifs s.peaks s.genome prj.peakwindowwidth
       (pathJoin (pathJoin s.motifsDir "homerResults") "motif1.motif") s.peaksMotifCentered)
     (some s.peaksMotifCentered) none false,
   Event.timestamp "Annotating peaks with motif info",
   Event.callLock
     (Cmd.AnnotatePeaks s.peaks s.genome
       (pathJoin (pathJoin s.motifsDir "homerResults") "motif1.motif") s.peaksMotifAnnotated)
     (some s.peaksMotifAnnotated) none false]

/-- Enrichment plots (both `nofail`) and FRiP (not `nofail`) stage events. -/
def plotFripEvents (prj : Project) (s : Sample) : List Event :=
  [Event.timestamp "Ploting enrichment at peaks centered on motifs",
   Event.callLock
     (Cmd.peakAnalysis s.filtered s.peaksMotifCentered (pathJoin prj.dirsResults "plots")
       prj.peakwindowwidth (if s.tagmented then 1 else s.readLength) s.genome 5 true true)
     none none true,
   Event.timestamp "Ploting enrichment around TSSs",
   Event.callLock
     (Cmd.tssAnalysis s.filtered (prj.tss s.genome) (pathJoin prj.dirsResults "plots")
       prj.peakwindowwidth (if s.tagmented then 1 else s.readLength) s.genome 5 true true)
     none none true,
   Event.timestamp "Calculating fraction of reads in peaks (FRiP)",
   Event.callLock (Cmd.calculateFRiP s.filtered s.peaks s.frip) (some s.frip) none false]

/-- `chipseq.process` (lines 65-411) as a pure function on the run inputs. -/
def chipseqProcess (args : Args) (prj : Project) (s : Sample) : Run :=
  let s1 := afterMergeSample s
  match s1.ctrl with
  | none =>
      { events := chipseqPre args prj s, sample := s1, outcome := Outcome.earlyExit }
  | some c =>
      match peakCallEvents args s1 c with
      | none =>
          { events := chipseqPre args prj s, sample := s1,
            outcome := Outcome.notImplementedError
              "Calling peaks with Zinba is not yet implemented." }
      | some pk =>
          { events := chipseqPre args prj s ++ pk ++ motifEvents s1 ++
              centerAnnotateEvents prj s1 ++ plotFripEvents prj s1 ++ [Event.stopPipeline],
            sample := s1, outcome := Outcome.completed }

/-- `chipseq.main` after deserialization: run `process`, then delete the
sample pickle unless `dry_run` (an uncaught `NotImplementedError` escapes
`process` before the deletion statement).  The boolean records whether the
pickle was deleted. -/
def chipseqMain (args : Args) (prj : Project) (s : Sample) : Run × Bool :=
  let r := chipseqProcess args prj s
  match r.outcome with
  | Outcome.notImplementedError _ => (r, false)
  | _ => (r, !args.dry_run)

/-- The Quant-seq trim stage (`quantseq.py` lines 108-129): unconditionally
the local `trimmomatic` command builder, with no branch on `args.trimmer`. -/
def quantseqTrimEvents (args : Args) (prj : Project) (s : Sample) : List Event :=
  [Event.timestamp "Trimming adapters from sample",
   Event.callLock
     (Cmd.shellCmd (trimmomatic (if s.paired then s.fastq1 else s.fastq)
       (if s.paired then s.trimmed1 else s.trimmed) args.cpus prj.adapters s.trimlog
       (if s.paired then some s.fastq2 else none)
       (if s.paired then some s.trimmed1Unpaired else none)
       (if s.paired then some s.trimmed2 else none)
       (if s.paired then some s.trimmed2Unpaired else none)))
     (some (if s.paired then s.trimmed1 else s.trimmed)) none false] ++
  (if s.paired then
     [Event.cleanAdd s.trimmed1 true, Event.cleanAdd s.trimmed1Unpaired true,
      Event.cleanAdd s.trimmed2 true, Event.cleanAdd s.trimmed2Unpaired true]
   else [Event.cleanAdd s.trimmed true])

/-- Quant-seq stages from mapping through finalization (`quantseq.py` lines
131-225).  Note the ERCC Bowtie2 alignment passes `sample.trimmed1` as its
second input when paired, exactly as the source does. -/
def quantseqMapQuantEvents (args : Args) (prj : Project) (s : Sample) : List Event :=
  [Event.timestamp "Mapping sample with Tophat",
   Event.callLock
     (Cmd.topHatMap (if s.paired then s.trimmed1 else s.trimmed) s.dirs.mapped
       (prj.genomes s.genome) (prj.transcriptomes s.genome) args.cpus)
     (some s.mapped) none false,
   Event.cleanAdd s.mapped true,
   Event.timestamp "Mapping erccs with Bowtie2",
   Event.callLock
     (Cmd.bowtie2Map (if s.paired then s.trimmed1 else s.trimmed)
       (if s.paired then some s.trimmed1 else none)
       s.erccMapped s.erccAlnRates s.erccAlnMetrics (prj.genomes "ercc")
       args.maxinsert args.cpus)
     (some s.erccMapped) none false,
   Event.cleanAdd s.erccMapped true,
   Event.timestamp "Filtering reads",
   Event.callLock
     (Cmd.filterReads s.mapped s.filtered s.dupsMetrics s.paired args.cpus args.quality)
     (some s.filtered) none false,
   Event.timestamp "Filtering ERCC reads",
   Event.callLock
     (Cmd.filterReads s.erccMapped s.erccFiltered s.erccDupsMetrics s.paired
       args.cpus args.quality)
     (some s.erccFiltered) none false,
   Event.timestamp "Sorting and indexing reads",
   Event.callLock (Cmd.sortIndexBam s.filtered s.filtered) none (some "sample.filtered") false,
   Event.timestamp "Sorting and indexing ERCC reads",
   Event.callLock (Cmd.sortIndexBam s.erccFiltered s.erccFiltered) none
     (some "sample.erccFiltered") false,
   Event.timestamp "Quantify sample transcripts with htseq-count",
   Event.callLock (Cmd.htSeqCount s.filtered (prj.transcriptomes s.genome) s.quant)
     (some s.quant) none false,
   Event.timestamp "Quantify ERCC transcripts with htseq-count",
   Event.callLock (Cmd.htSeqCount s.erccFiltered (prj.transcriptomes "ercc") s.erccQuant)
     (some s.erccQuant) none true,
   Event.timestamp "Quantifying read counts with kallisto",
   Event.callLock
     (Cmd.kallisto (if s.paired then s.trimmed1 else s.trimmed)
       (if s.paired then some s.trimmed2 else none)
       s.dirs.quant s.pseudomapped (prj.kallistoindex s.genome) args.cpus)
     (some s.kallistoQuant) none true,
   Event.stopPipeline]

/-- `quantseq.process` (lines 62-226) as a pure function on the run inputs. -/
def quantseqProcess (args : Args) (prj : Project) (s : Sample) : Run :=
  { events := mergeEvents s ++
      fastqcEvents (afterMergeSample s) (afterMergeBam s) ++
      bam2fastqEvents (afterMergeSample s) (afterMergeBam s) ++
      quantseqTrimEvents args prj (afterMergeSample s) ++
      quantseqMapQuantEvents args prj (afterMergeSample s),
    sample := afterMergeSample s, outcome := Outcome.completed }

/-- Commands belonging to the post-gate phase of the ChIP-seq workflow:
peak calling (including the model plot), motif discovery, motif
centering/annotation, enrichment plots, and FRiP. -/
def Cmd.isPeakPhase : Cmd → Bool
  | Cmd.macs2CallPeaks _ _ _ _ _ _ => true
  | Cmd.macs2PlotModel _ _ => true
  | Cmd.sppCallPeaks _ _ _ _ _ _ _ => true
  | Cmd.homerFindMotifs _ _ _ _ _ _ => true
  | Cmd.centerPeaksOnMotifs _ _ _ _ _ => true
  | Cmd.AnnotatePeaks _ _ _ _ => true
  | Cmd.peakAnalysis _ _ _ _ _ _ _ _ _ => true
  | Cmd.tssAnalysis _ _ _ _ _ _ _ _ _ => true
  | Cmd.calculateFRiP _ _ _ => true
  | _ => false

/-- An event that invokes a post-gate (peak/motif/plot/FRiP) stage. -/
def Event.invokesPeakPhase : Event → Bool
  | Event.callLock c _ _ _ => c.isPeakPhase
  | _ => false

/-- The ChIP-seq commands the source invokes with `nofail=True`: signal/noise
QC and the two enrichment plots. -/
def Cmd.chipTolerant : Cmd → Bool
  | Cmd.peakTools _ _ _ _ => true
  | Cmd.peakAnalysis _ _ _ _ _ _ _ _ _ => true
  | Cmd.tssAnalysis _ _ _ _ _ _ _ _ _ => true
  | _ => false

/-- An event respects the ChIP-seq failure-tolerance policy when its `nofail`
flag is set exactly on the designated tolerant commands. -/
def Event.chipNofailOk : Event → Bool
  | Event.callLock c _ _ nf => nf == c.chipTolerant
  | _ => true

/-- The Quant-seq commands the source invokes with `nofail=True`, relative to
a sample: the htseq-count quantification writing the ERCC output slot, and
kallisto. -/
def Cmd.quantTolerant (s : Sample) : Cmd → Bool
  | Cmd.htSeqCount _ _ out => out == s.erccQuant
  | Cmd.kallisto _ _ _ _ _ _ => true
  | _ => false

/-- An event respects the Quant-seq failure-tolerance policy for sample `s`
when its `nofail` flag is set exactly on the designated tolerant commands. -/
def Event.quantNofailOk (s : Sample) : Event → Bool
  | Event.callLock c _ _ nf => nf == c.quantTolerant s
  | _ => true

/-- Number of merge-replicates invocations in an event list. -/
def countMergeEvents (evs : List Event) : Nat :=
  (evs.filter fun e =>
    match e with
    | Event.callLock (Cmd.mergeBams _ _) _ _ _ => true
    | _ => false).length

/-- The (size, n_motifs) arguments of each homer motif-discovery invocation,
in order of invocation. -/
def motifCalls (evs : List Event) : List (String × Nat) :=
  evs.filterMap fun e =>
    match e with
    | Event.callLock (Cmd.homerFindMotifs _ _ _ size _ n) _ _ _ => some (size, n)
    | _ => none

/-- The (first input, second input) of each Bowtie2 alignment invocation in an
event list (in the Quant-seq trace, the only one is the ERCC alignment). -/
def bowtie2Inputs (evs : List Event) : List (String × Option String) :=
  evs.filterMap fun e =>
    match e with
    | Event.callLock (Cmd.bowtie2Map f1 f2 _ _ _ _ _ _) _ _ _ => some (f1, f2)
    | _ => none

/-- The (lock name, hub file) of each track-hub append invocation in an event
list. -/
def hubAppendLocks (evs : List Event) : List (Option String × String) :=
  evs.filterMap fun e =>
    match e with
    | Event.callLock (Cmd.addTrackToHub _ _ hub _) _ ln _ => some (ln, hub)
    | _ => none

/-- Concrete directory layout used by the evaluation witnesses. -/
def dirsA : Dirs :=
  { sampleRoot := "sr", unmapped := "un", peaks := "pk", mapped := "mp", quant := "qt" }

/-- Concrete project configuration used by the evaluation witnesses. -/
def projA : Project :=
  { name := "prj", url := "http://u", adapters := "ad.fa",
    genomes := fun g => "gidx-" ++ g, chrsizes := fun _ => "chrs",
    genomewindows := fun _ => "gw", tss := fun _ => "tssf",
    transcriptomes := fun g => "tx-" ++ g, kallistoindex := fun _ => "kidx",
    peakwindowwidth := 1000, dirsRoot := "root", dirsResults := "res", dirsHtml := "html" }

/-- Concrete run options used by the evaluation witnesses. -/
def argsA : Args :=
  { trimmer := "trimmomatic", peak_caller := "macs2", cpus := 4, quality := 30,
    maxinsert := 2000, dry_run := false }

/-- Concrete control sample used by the evaluation witnesses. -/
def ctrlA : Ctrl := { sampleName := "ctl", filtered := "ctl.flt" }

/-- Builds a concrete sample with path slots derived from its name; used by
the evaluation witnesses. -/
def mkSample (nm genome : String) (paired tagmented histone broad : Bool)
    (bam : BamInput) (c : Option Ctrl) : Sample :=
  { name := nm, paired := paired, tagmented := tagmented, histone := histone,
    broad := broad, genome := genome, readLength := 50, unmappedBam := bam,
    unmapped := nm ++ ".mrg", fastq := nm ++ ".fq", fastq1 := nm ++ ".1.fq",
    fastq2 := nm ++ ".2.fq", fastqUnpaired := nm ++ ".up.fq",
    trimmed := nm ++ ".tr", trimmed1 := nm ++ ".tr1", trimmed1Unpaired := nm ++ ".tr1u",
    trimmed2 := nm ++ ".tr2", trimmed2Unpaired := nm ++ ".tr2u",
    trimlog := nm ++ ".tlog", mapped := nm ++ ".map", alnRates := nm ++ ".ar",
    alnMetrics := nm ++ ".am", filtered := nm ++ ".flt", dupsMetrics := nm ++ ".dm",
    filteredshifted := nm ++ ".sh", bigwig := nm ++ ".bw", trackURL := "u/" ++ nm,
    trackColour := "0,0,0", coverage := nm ++ ".cov", qc := nm ++ ".qc",
    qcPlot := nm ++ ".qcp", peaks := nm ++ ".pks", motifsDir := nm ++ "_mot",
    peaksMotifCentered := nm ++ ".cen", peaksMotifAnnotated := nm ++ ".ann",
    frip := nm ++ ".frip", erccMapped := nm ++ ".emap", erccAlnRates := nm ++ ".ear",
    erccAlnMetrics := nm ++ ".eam", erccFiltered := nm ++ ".eflt",
    erccDupsMetrics := nm ++ ".edm", quant := nm ++ ".qnt", erccQuant := nm ++ ".eqnt",
    pseudomapped := nm ++ ".psd", kallistoQuant := nm ++ ".kq", dirs := dirsA, ctrl := c }

/-- A paired sample with no `ctrl` association. -/
def sampleA : Sample := mkSample "sA" "hg19" true false false false (BamInput.single "sA.bam") none

/-- A paired TF sample (histone = false) with a control. -/
def sampleB : Sample :=
  mkSample "sB" "hg19" true false false false (BamInput.single "sB.bam") (some ctrlA)

/-- A histone sample with a control. -/
def sampleH : Sample :=
  mkSample "sH" "hg19" true false true false (BamInput.single "sH.bam") (some ctrlA)

/-- A sample whose `unmappedBam` is a list of two replicate paths. -/
def sampleM : Sample :=
  mkSample "sM" "hg19" true false false false (BamInput.multiple ["r1.bam", "r2.bam"]) none

/-- A single-end sample. -/
def sampleE : Sample := mkSample "sE" "hg19" false false false false (BamInput.single "sE.bam") none

/-- Run options selecting the zinba peak caller. -/
def argsZ : Args := { argsA with peak_caller := "zinba" }

/-- Numeric value of a decimal digit character. -/
def digitVal (c : Char) : Nat := c.toNat - 48

/-- Numeric reading of a decimal numeral string, connecting the string-typed
window sizes handed to the motif finder with their numeric values. -/
def parseNat (s : String) : Nat := s.data.foldl (fun n c => n * 10 + digitVal c) 0

theorem afterMergeSample_ctrl (s : Sample) : (afterMergeSample s).ctrl = s.ctrl := by
  unfold afterMergeSample; cases s.unmappedBam <;> rfl

theorem afterMergeSample_filtered (s : Sample) : (afterMergeSample s).filtered = s.filtered := by
  unfold afterMergeSample; cases s.unmappedBam <;> rfl

theorem afterMergeSample_qc (s : Sample) : (afterMergeSample s).qc = s.qc := by
  unfold afterMergeSample; cases s.unmappedBam <;> rfl

theorem afterMergeSample_qcPlot (s : Sample) : (afterMergeSample s).qcPlot = s.qcPlot := by
  unfold afterMergeSample; cases s.unmappedBam <;> rfl

theorem chipseqPre_all_not_peakPhase (a : Args) (p : Project) (s : Sample) :
    (chipseqPre a p s).all (fun e => !e.invokesPeakPhase) = true := by
  unfold chipseqPre mergeEvents fastqcEvents bam2fastqEvents chipseqTrim chipseqMapEvents
    chipseqFilterEvents shiftEvents indexEvents trackEvents coverageEvents qcEvents
  cases hb : s.unmappedBam <;>
  by_cases hp : (afterMergeSample s).paired = true <;>
  by_cases ht : a.trimmer = "trimmomatic" <;>
  by_cases hs : a.trimmer = "skewer" <;>
  by_cases hg : (afterMergeSample s).tagmented = true <;>
  simp_all [Event.invokesPeakPhase, Cmd.isPeakPhase]

theorem chipseqPre_getLast (a : Args) (p : Project) (s : Sample) :
    (chipseqPre a p s).getLast? =
      some (Event.callLock (Cmd.peakTools s.filtered s.qc s.qcPlot a.cpus)
        (some s.qcPlot) none true) := by
  unfold chipseqPre qcEvents
  rw [List.getLast?_append_of_ne_nil]
  · simp [afterMergeSample_filtered, afterMergeSample_qc, afterMergeSample_qcPlot]
  · simp

/-- Claim C1: a ChIP-seq run on a sample with no `ctrl` association terminates
successfully immediately after the signal/noise-QC stage: the outcome is the
early exit, no peak-calling / motif / centering-annotation / enrichment-plot /
FRiP stage is invoked, and the last event is the signal/noise-QC invocation. -/
theorem chipseq_no_ctrl_early_exit (a : Args) (p : Project) (s : Sample)
    (h : s.ctrl = none) :
    (chipseqProcess a p s).outcome = Outcome.earlyExit ∧
    (chipseqProcess a p s).events.all (fun e => !e.invokesPeakPhase) = true ∧
    (chipseqProcess a p s).events.getLast? =
      some (Event.callLock (Cmd.peakTools s.filtered s.qc s.qcPlot a.cpus)
        (some s.qcPlot) none true) := by
  have hc : (afterMergeSample s).ctrl = none := by rw [afterMergeSample_ctrl, h]
  unfold chipseqProcess
  simp only [hc]
  exact ⟨by trivial, chipseqPre_all_not_peakPhase a p s, chipseqPre_getLast a p s⟩

/-- Evaluation of C1 at a concrete control-less sample. -/
theorem chipseq_no_ctrl_early_exit_witness :
    sampleA.ctrl = none ∧
    ((chipseqProcess argsA projA sampleA).outcome = Outcome.earlyExit ∧
     (chipseqProcess argsA projA sampleA).events.all (fun e => !e.invokesPeakPhase) = true ∧
     (chipseqProcess argsA projA sampleA).events.getLast? =
       some (Event.callLock (Cmd.peakTools sampleA.filtered sampleA.qc sampleA.qcPlot argsA.cpus)
         (some sampleA.qcPlot) none true)) :=
  ⟨rfl, chipseq_no_ctrl_early_exit argsA projA sampleA rfl⟩

theorem chipseqPre_all_chipNofailOk (a : Args) (p : Project) (s : Sample) :
    (chipseqPre a p s).all Event.chipNofailOk = true := by
  unfold chipseqPre mergeEvents fastqcEvents bam2fastqEvents chipseqTrim chipseqMapEvents
    chipseqFilterEvents shiftEvents indexEvents trackEvents coverageEvents qcEvents
  cases hb : s.unmappedBam <;>
  by_cases hp : (afterMergeSample s).paired = true <;>
  by_cases ht : a.trimmer = "trimmomatic" <;>
  by_cases hs : a.trimmer = "skewer" <;>
  by_cases hg : (afterMergeSample s).tagmented = true <;>
  simp_all [Event.chipNofailOk, Cmd.chipTolerant]

theorem peakCallEvents_some_all_chipNofailOk (a : Args) (s : Sample) (c : Ctrl)
    (pk : List Event) (h : peakCallEvents a s c = some pk) :
    pk.all Event.chipNofailOk = true := by
  unfold peakCallEvents at h
  by_cases h1 : a.peak_caller = "macs2"
  · rw [if_pos h1] at h
    cases h
    simp [Event.chipNofailOk, Cmd.chipTolerant]
  · rw [if_neg h1] at h
    by_cases h2 : a.peak_caller = "spp"
    · rw [if_pos h2] at h
      cases h
      simp [Event.chipNofailOk, Cmd.chipTolerant]
    · rw [if_neg h2] at h
      by_cases h3 : a.peak_caller = "zinba"
      · rw [if_pos h3] at h
        cases h
      · rw [if_neg h3] at h
        cases h
        simp

theorem motifEvents_all_chipNofailOk (s : Sample) :
    (motifEvents s).all Event.chipNofailOk = true := by
  unfold motifEvents
  by_cases hh : s.histone = true <;> simp_all [Event.chipNofailOk, Cmd.chipTolerant]

theorem centerAnnotateEvents_all_chipNofailOk (p : Project) (s : Sample) :
    (centerAnnotateEvents p s).all Event.chipNofailOk = true := by
  simp [centerAnnotateEvents, Event.chipNofailOk, Cmd.chipTolerant]

theorem plotFripEvents_all_chipNofailOk (p : Project) (s : Sample) :
    (plotFripEvents p s).all Event.chipNofailOk = true := by
  simp [plotFripEvents, Event.chipNofailOk, Cmd.chipTolerant]

theorem chipseqProcess_all_chipNofailOk (a : Args) (p : Project) (s : Sample) :
    (chipseqProcess a p s).events.all Event.chipNofailOk = true := by
  simp only [chipseqProcess]
  cases hc : (afterMergeSample s).ctrl with
  | none => simpa using chipseqPre_all_chipNofailOk a p s
  | some c =>
    cases hpk : peakCallEvents a (afterMergeSample s) c with
    | none =>
      simp only [hpk]
      simpa using chipseqPre_all_chipNofailOk a p s
    | some pk =>
      simp only [hpk]
      simp [List.all_append, chipseqPre_all_chipNofailOk, motifEvents_all_chipNofailOk,
        centerAnnotateEvents_all_chipNofailOk, plotFripEvents_all_chipNofailOk,
        peakCallEvents_some_all_chipNofailOk a (afterMergeSample s) c pk hpk,
        Event.chipNofailOk]

theorem quantseqProcess_all_quantNofailOk (a : Args) (p : Project) (s : Sample)
    (h : s.quant ≠ s.erccQuant) :
    (quantseqProcess a p s).events.all (Event.quantNofailOk s) = true := by
  have hb : (s.quant == s.erccQuant) = false := beq_eq_false_iff_ne.mpr h
  unfold quantseqProcess mergeEvents fastqcEvents bam2fastqEvents quantseqTrimEvents
    quantseqMapQuantEvents afterMergeSample afterMergeBam
  cases hbam : s.unmappedBam <;>
  by_cases hp : s.paired = true <;>
  simp_all [Event.quantNofailOk, Cmd.quantTolerant]

/-- Claim C5: exactly the designated stages run failure-tolerant and no
others — in ChIP-seq the signal/noise-QC stage and the two enrichment-plot
stages carry `nofail` while FRiP and every other stage do not; in Quant-seq
the ERCC htseq-count quantification and the kallisto pseudo-alignment carry
`nofail` while the primary quantification and every other stage do not. -/
theorem nofail_stage_policy (a1 : Args) (p1 : Project) (s1 : Sample)
    (a2 : Args) (p2 : Project) (s2 : Sample) (h : s2.quant ≠ s2.erccQuant) :
    (chipseqProcess a1 p1 s1).events.all Event.chipNofailOk = true ∧
    (quantseqProcess a2 p2 s2).events.all (Event.quantNofailOk s2) = true :=
  ⟨chipseqProcess_all_chipNofailOk a1 p1 s1,
   quantseqProcess_all_quantNofailOk a2 p2 s2 h⟩

/-- Evaluation of C5 at concrete samples. -/
theorem nofail_stage_policy_witness :
    sampleB.quant ≠ sampleB.erccQuant ∧
    ((chipseqProcess argsA projA sampleA).events.all Event.chipNofailOk = true ∧
     (quantseqProcess argsA projA sampleB).events.all (Event.quantNofailOk sampleB) = true) :=
  ⟨by decide, nofail_stage_policy argsA projA sampleA argsA projA sampleB (by decide)⟩

/-- Claim C2: with a `ctrl` association and `peak_caller = zinba`, the run
fails with the explicit NotImplementedError the moment the zinba branch is
selected; no peak-calling (or any downstream peak-phase) command is ever
issued, so no peak-output artifact is produced. -/
theorem chipseq_zinba_not_implemented (a : Args) (p : Project) (s : Sample) (c : Ctrl)
    (hc : s.ctrl = some c) (hz : a.peak_caller = "zinba") :
    (chipseqProcess a p s).outcome =
      Outcome.notImplementedError "Calling peaks with Zinba is not yet implemented." ∧
    (chipseqProcess a p s).events.all (fun e => !e.invokesPeakPhase) = true := by
  have hcc : (afterMergeSample s).ctrl = some c := by rw [afterMergeSample_ctrl, hc]
  have hpk : peakCallEvents a (afterMergeSample s) c = none := by
    unfold peakCallEvents
    rw [hz, if_neg (by decide), if_neg (by decide), if_pos rfl]
  simp only [chipseqProcess, hcc, hpk]
  exact ⟨by trivial, chipseqPre_all_not_peakPhase a p s⟩

/-- Evaluation of C2 at a concrete sample with a control and zinba selected. -/
theorem chipseq_zinba_not_implemented_witness :
    sampleB.ctrl = some ctrlA ∧ argsZ.peak_caller = "zinba" ∧
    ((chipseqProcess argsZ projA sampleB).outcome =
       Outcome.notImplementedError "Calling peaks with Zinba is not yet implemented." ∧
     (chipseqProcess argsZ projA sampleB).events.all (fun e => !e.invokesPeakPhase) = true) :=
  ⟨rfl, rfl, chipseq_zinba_not_implemented argsZ projA sampleB ctrlA rfl rfl⟩

/-- Claim C3 (evaluating the code): in the Quant-seq run of any paired sample,
the single Bowtie2 invocation — the ERCC spike-in alignment — receives
`sample.trimmed1` as its first input and `sample.trimmed1` again (not
`trimmed2`) as its second input. -/
theorem quantseq_ercc_align_inputs (a : Args) (p : Project) (s : Sample)
    (h : s.paired = true) :
    bowtie2Inputs (quantseqProcess a p s).events = [(s.trimmed1, some s.trimmed1)] := by
  unfold quantseqProcess mergeEvents fastqcEvents bam2fastqEvents quantseqTrimEvents
    quantseqMapQuantEvents afterMergeSample afterMergeBam bowtie2Inputs
  cases hbam : s.unmappedBam <;> simp_all

/-- Evaluation of C3 at a concrete paired sample whose `trimmed1` and
`trimmed2` slots differ: the second ERCC alignment input is `trimmed1`,
not `trimmed2`. -/
theorem quantseq_ercc_align_inputs_witness :
    sampleA.paired = true ∧ sampleA.trimmed1 ≠ sampleA.trimmed2 ∧
    bowtie2Inputs (quantseqProcess argsA projA sampleA).events =
      [(sampleA.trimmed1, some sampleA.trimmed1)] :=
  ⟨rfl, by decide, quantseq_ercc_align_inputs argsA projA sampleA rfl⟩

/-- Claim C4: the Quant-seq trim stage is independent of `RunConfig.trimmer`
— the whole run is unchanged under any substitution of the trimmer option —
and the trim command it executes is the trimmomatic command form built by the
local `trimmomatic` builder. -/
theorem quantseq_trim_independent_of_trimmer (t1 t2 pc : String) (cp q mi : Nat)
    (dr : Bool) (p : Project) (s : Sample) :
    quantseqProcess (Args.mk t1 pc cp q mi dr) p s =
      quantseqProcess (Args.mk t2 pc cp q mi dr) p s ∧
    Event.callLock
      (Cmd.shellCmd (trimmomatic (if s.paired then s.fastq1 else s.fastq)
        (if s.paired then s.trimmed1 else s.trimmed) cp p.adapters s.trimlog
        (if s.paired then some s.fastq2 else none)
        (if s.paired then some s.trimmed1Unpaired else none)
        (if s.paired then some s.trimmed2 else none)
        (if s.paired then some s.trimmed2Unpaired else none)))
      (some (if s.paired then s.trimmed1 else s.trimmed)) none false
      ∈ (quantseqProcess (Args.mk t1 pc cp q mi dr) p s).events := by
  constructor
  · rfl
  · unfold quantseqProcess mergeEvents fastqcEvents bam2fastqEvents quantseqTrimEvents
      quantseqMapQuantEvents afterMergeSample afterMergeBam
    cases hbam : s.unmappedBam <;> by_cases hp : s.paired = true <;> simp_all

theorem countMergeEvents_append (l1 l2 : List Event) :
    countMergeEvents (l1 ++ l2) = countMergeEvents l1 + countMergeEvents l2 := by
  simp [countMergeEvents, List.filter_append]

theorem chipseqPre_countMerge (a : Args) (p : Project) (s : Sample) :
    countMergeEvents (chipseqPre a p s) = countMergeEvents (mergeEvents s) := by
  unfold chipseqPre fastqcEvents bam2fastqEvents chipseqTrim chipseqMapEvents
    chipseqFilterEvents shiftEvents indexEvents trackEvents coverageEvents qcEvents
  by_cases hp : (afterMergeSample s).paired = true <;>
  by_cases ht : a.trimmer = "trimmomatic" <;>
  by_cases hs : a.trimmer = "skewer" <;>
  by_cases hg : (afterMergeSample s).tagmented = true <;>
  simp_all [countMergeEvents_append, countMergeEvents]

theorem peakCallEvents_some_countMerge (a : Args) (s : Sample) (c : Ctrl)
    (pk : List Event) (h : peakCallEvents a s c = some pk) :
    countMergeEvents pk = 0 := by
  unfold peakCallEvents at h
  by_cases h1 : a.peak_caller = "macs2"
  · rw [if_pos h1] at h
    cases h
    simp [countMergeEvents]
  · rw [if_neg h1] at h
    by_cases h2 : a.peak_caller = "spp"
    · rw [if_pos h2] at h
      cases h
      simp [countMergeEvents]
    · rw [if_neg h2] at h
      by_cases h3 : a.peak_caller = "zinba"
      · rw [if_pos h3] at h
        cases h
      · rw [if_neg h3] at h
        cases h
        simp [countMergeEvents]

theorem motifEvents_countMerge (s : Sample) :
    countMergeEvents (motifEvents s) = 0 := by
  unfold motifEvents
  by_cases hh : s.histone = true <;> simp_all [countMergeEvents]

theorem centerAnnotateEvents_countMerge (p : Project) (s : Sample) :
    countMergeEvents (centerAnnotateEvents p s) = 0 := by
  simp [centerAnnotateEvents, countMergeEvents]

theorem plotFripEvents_countMerge (p : Project) (s : Sample) :
    countMergeEvents (plotFripEvents p s) = 0 := by
  simp [plotFripEvents, countMergeEvents]

theorem chipseqProcess_countMerge (a : Args) (p : Project) (s : Sample) :
    countMergeEvents (chipseqProcess a p s).events = countMergeEvents (mergeEvents s) := by
  simp only [chipseqProcess]
  cases hc : (afterMergeSample s).ctrl with
  | none => simpa using chipseqPre_countMerge a p s
  | some c =>
    cases hpk : peakCallEvents a (afterMergeSample s) c with
    | none =>
      simp only [hpk]
      simpa using chipseqPre_countMerge a p s
    | some pk =>
      simp only [hpk]
      simp only [countMergeEvents_append, chipseqPre_countMerge, motifEvents_countMerge,
        centerAnnotateEvents_countMerge, plotFripEvents_countMerge,
        peakCallEvents_some_countMerge a (afterMergeSample s) c pk hpk]
      simp [countMergeEvents]

theorem quantseqProcess_countMerge (a : Args) (p : Project) (s : Sample) :
    countMergeEvents (quantseqProcess a p s).events = countMergeEvents (mergeEvents s) := by
  unfold quantseqProcess fastqcEvents bam2fastqEvents quantseqTrimEvents quantseqMapQuantEvents
  by_cases hp : (afterMergeSample s).paired = true <;>
  simp_all [countMergeEvents_append, countMergeEvents]

theorem chipseqProcess_sample (a : Args) (p : Project) (s : Sample) :
    (chipseqProcess a p s).sample = afterMergeSample s := by
  simp only [chipseqProcess]
  cases hc : (afterMergeSample s).ctrl with
  | none => rfl
  | some c =>
    cases hpk : peakCallEvents a (afterMergeSample s) c <;> simp only [hpk]

theorem quantseqProcess_sample (a : Args) (p : Project) (s : Sample) :
    (quantseqProcess a p s).sample = afterMergeSample s := rfl

theorem countMerge_mergeEvents_single (s : Sample) (q : String)
    (h : s.unmappedBam = BamInput.single q) : countMergeEvents (mergeEvents s) = 0 := by
  unfold mergeEvents
  rw [h]
  rfl

theorem countMerge_mergeEvents_multiple (s : Sample) (ps : List String)
    (h : s.unmappedBam = BamInput.multiple ps) : countMergeEvents (mergeEvents s) = 1 := by
  unfold mergeEvents
  rw [h]
  simp [countMergeEvents]

theorem afterMergeSample_single (s : Sample) (q : String)
    (h : s.unmappedBam = BamInput.single q) : afterMergeSample s = s := by
  unfold afterMergeSample
  rw [h]

theorem afterMergeSample_multiple (s : Sample) (ps : List String)
    (h : s.unmappedBam = BamInput.multiple ps) :
    afterMergeSample s = { s with unmappedBam := BamInput.single s.unmapped } := by
  unfold afterMergeSample
  rw [h]

/-- Claim C6: a sample whose `unmappedBam` is a list of more than one path has
the merge stage run exactly once and `unmappedBam` mutated to the single
merged path; a sample whose `unmappedBam` is already a single path has the
merge stage skipped and its state untouched; rerunning either pipeline on the
post-merge sample performs no further merge — in both pipelines. -/
theorem merge_replicates_at_most_once (a1 a2 : Args) (p1 p2 : Project) (s t : Sample)
    (ps : List String) (q : String)
    (hs : s.unmappedBam = BamInput.multiple ps) (hlen : 1 < ps.length)
    (ht : t.unmappedBam = BamInput.single q) :
    countMergeEvents (chipseqProcess a1 p1 s).events = 1 ∧
    (chipseqProcess a1 p1 s).sample.unmappedBam = BamInput.single s.unmapped ∧
    countMergeEvents (chipseqProcess a1 p1 (chipseqProcess a1 p1 s).sample).events = 0 ∧
    countMergeEvents (chipseqProcess a1 p1 t).events = 0 ∧
    (chipseqProcess a1 p1 t).sample = t ∧
    countMergeEvents (quantseqProcess a2 p2 s).events = 1 ∧
    (quantseqProcess a2 p2 s).sample.unmappedBam = BamInput.single s.unmapped ∧
    countMergeEvents (quantseqProcess a2 p2 (quantseqProcess a2 p2 s).sample).events = 0 ∧
    countMergeEvents (quantseqProcess a2 p2 t).events = 0 ∧
    (quantseqProcess a2 p2 t).sample = t := by
  have hcs : (chipseqProcess a1 p1 s).sample.unmappedBam = BamInput.single s.unmapped := by
    rw [chipseqProcess_sample, afterMergeSample_multiple s ps hs]
  have hqs : (quantseqProcess a2 p2 s).sample.unmappedBam = BamInput.single s.unmapped := by
    rw [quantseqProcess_sample, afterMergeSample_multiple s ps hs]
  refine ⟨?_, hcs, ?_, ?_, ?_, ?_, hqs, ?_, ?_, ?_⟩
  · rw [chipseqProcess_countMerge, countMerge_mergeEvents_multiple s ps hs]
  · rw [chipseqProcess_countMerge, countMerge_mergeEvents_single _ _ hcs]
  · rw [chipseqProcess_countMerge, countMerge_mergeEvents_single t q ht]
  · rw [chipseqProcess_sample, afterMergeSample_single t q ht]
  · rw [quantseqProcess_countMerge, countMerge_mergeEvents_multiple s ps hs]
  · rw [quantseqProcess_countMerge, countMerge_mergeEvents_single _ _ hqs]
  · rw [quantseqProcess_countMerge, countMerge_mergeEvents_single t q ht]
  · rw [quantseqProcess_sample, afterMergeSample_single t q ht]

/-- Evaluation of C6 at a concrete two-replicate sample and a concrete
single-path sample. -/
theorem merge_replicates_at_most_once_witness :
    sampleM.unmappedBam = BamInput.multiple ["r1.bam", "r2.bam"] ∧
    1 < (["r1.bam", "r2.bam"] : List String).length ∧
    sampleA.unmappedBam = BamInput.single "sA.bam" ∧
    (countMergeEvents (chipseqProcess argsA projA sampleM).events = 1 ∧
     (chipseqProcess argsA projA sampleM).sample.unmappedBam = BamInput.single sampleM.unmapped ∧
     countMergeEvents
       (chipseqProcess argsA projA (chipseqProcess argsA projA sampleM).sample).events = 0 ∧
     countMergeEvents (chipseqProcess argsA projA sampleA).events = 0 ∧
     (chipseqProcess argsA projA sampleA).sample = sampleA ∧
     countMergeEvents (quantseqProcess argsA projA sampleM).events = 1 ∧
     (quantseqProcess argsA projA sampleM).sample.unmappedBam = BamInput.single sampleM.unmapped ∧
     countMergeEvents
       (quantseqProcess argsA projA (quantseqProcess argsA projA sampleM).sample).events = 0 ∧
     countMergeEvents (quantseqProcess argsA projA sampleA).events = 0 ∧
     (quantseqProcess argsA projA sampleA).sample = sampleA) :=
  ⟨rfl, by decide, rfl,
   merge_replicates_at_most_once argsA argsA projA projA sampleM sampleA
     ["r1.bam", "r2.bam"] "sA.bam" rfl (by decide) rfl⟩

theorem afterMergeSample_histone (s : Sample) : (afterMergeSample s).histone = s.histone := by
  unfold afterMergeSample; cases s.unmappedBam <;> rfl

theorem motifCalls_append (l1 l2 : List Event) :
    motifCalls (l1 ++ l2) = motifCalls l1 ++ motifCalls l2 := by
  simp [motifCalls]

theorem chipseqPre_motifCalls (a : Args) (p : Project) (s : Sample) :
    motifCalls (chipseqPre a p s) = [] := by
  unfold chipseqPre mergeEvents fastqcEvents bam2fastqEvents chipseqTrim chipseqMapEvents
    chipseqFilterEvents shiftEvents indexEvents trackEvents coverageEvents qcEvents
  cases hb : s.unmappedBam <;>
  by_cases hp : (afterMergeSample s).paired = true <;>
  by_cases ht : a.trimmer = "trimmomatic" <;>
  by_cases hs : a.trimmer = "skewer" <;>
  by_cases hg : (afterMergeSample s).tagmented = true <;>
  simp_all [motifCalls]

theorem peakCallEvents_some_motifCalls (a : Args) (s : Sample) (c : Ctrl)
    (pk : List Event) (h : peakCallEvents a s c = some pk) :
    motifCalls pk = [] := by
  unfold peakCallEvents at h
  by_cases h1 : a.peak_caller = "macs2"
  · rw [if_pos h1] at h
    cases h
    simp [motifCalls]
  · rw [if_neg h1] at h
    by_cases h2 : a.peak_caller = "spp"
    · rw [if_pos h2] at h
      cases h
      simp [motifCalls]
    · rw [if_neg h2] at h
      by_cases h3 : a.peak_caller = "zinba"
      · rw [if_pos h3] at h
        cases h
      · rw [if_neg h3] at h
        cases h
        simp [motifCalls]

theorem centerAnnotateEvents_motifCalls (p : Project) (s : Sample) :
    motifCalls (centerAnnotateEvents p s) = [] := by
  simp [centerAnnotateEvents, motifCalls]

theorem plotFripEvents_motifCalls (p : Project) (s : Sample) :
    motifCalls (plotFripEvents p s) = [] := by
  simp [plotFripEvents, motifCalls]

theorem chipseqProcess_motifCalls (a : Args) (p : Project) (s : Sample) (c : Ctrl)
    (hc : s.ctrl = some c) (hz : a.peak_caller ≠ "zinba") :
    motifCalls (chipseqProcess a p s).events =
      motifCalls (motifEvents (afterMergeSample s)) := by
  have hcc : (afterMergeSample s).ctrl = some c := by rw [afterMergeSample_ctrl, hc]
  simp only [chipseqProcess, hcc]
  cases hpk : peakCallEvents a (afterMergeSample s) c with
  | none =>
    exfalso
    unfold peakCallEvents at hpk
    by_cases h1 : a.peak_caller = "macs2"
    · rw [if_pos h1] at hpk
      cases hpk
    · rw [if_neg h1] at hpk
      by_cases h2 : a.peak_caller = "spp"
      · rw [if_pos h2] at hpk
        cases hpk
      · rw [if_neg h2] at hpk
        by_cases h3 : a.peak_caller = "zinba"
        · exact hz h3
        · rw [if_neg h3] at hpk
          cases hpk
  | some pk =>
    simp only [hpk]
    simp only [motifCalls_append, chipseqPre_motifCalls, centerAnnotateEvents_motifCalls,
      plotFripEvents_motifCalls, peakCallEvents_some_motifCalls a (afterMergeSample s) c pk hpk]
    simp [motifCalls]

theorem motifEvents_calls_histone (s : Sample) (h : s.histone = true) :
    motifCalls (motifEvents s) = [("1000", 20)] := by
  unfold motifEvents
  rw [h]
  simp [motifCalls]

theorem motifEvents_calls_tf (s : Sample) (h : s.histone = false) :
    motifCalls (motifEvents s) = [("50", 8), ("200", 12)] := by
  unfold motifEvents
  rw [h]
  simp [motifCalls]

/-- Claim C7: with a control present and a non-zinba peak caller, a histone
sample triggers exactly one motif-discovery invocation (window "1000", 20
motifs) while a TF sample triggers exactly two — self (window "50", 8 motifs)
then co-binders (window "200", 12 motifs) — the co-binder search using a
strictly larger window and a strictly higher motif count. -/
theorem motif_discovery_branches (a : Args) (p : Project) (s t : Sample) (cs ct : Ctrl)
    (hcs : s.ctrl = some cs) (hct : t.ctrl = some ct) (hz : a.peak_caller ≠ "zinba")
    (hhs : s.histone = true) (hht : t.histone = false) :
    motifCalls (chipseqProcess a p s).events = [("1000", 20)] ∧
    motifCalls (chipseqProcess a p t).events = [("50", 8), ("200", 12)] ∧
    parseNat "50" < parseNat "200" ∧ 8 < 12 := by
  refine ⟨?_, ?_, by decide, by decide⟩
  · rw [chipseqProcess_motifCalls a p s cs hcs hz,
      motifEvents_calls_histone _ (by rw [afterMergeSample_histone, hhs])]
  · rw [chipseqProcess_motifCalls a p t ct hct hz,
      motifEvents_calls_tf _ (by rw [afterMergeSample_histone, hht])]

/-- Evaluation of C7 at a concrete histone sample and a concrete TF sample. -/
theorem motif_discovery_branches_witness :
    sampleH.ctrl = some ctrlA ∧ sampleB.ctrl = some ctrlA ∧
    argsA.peak_caller ≠ "zinba" ∧ sampleH.histone = true ∧ sampleB.histone = false ∧
    (motifCalls (chipseqProcess argsA projA sampleH).events = [("1000", 20)] ∧
     motifCalls (chipseqProcess argsA projA sampleB).events = [("50", 8), ("200", 12)] ∧
     parseNat "50" < parseNat "200" ∧ 8 < 12) :=
  ⟨rfl, rfl, by decide, rfl, rfl,
   motif_discovery_branches argsA projA sampleH sampleB ctrlA ctrlA rfl rfl (by decide) rfl rfl⟩

/-- Claim C8: in the ChIP-seq trim stage, skewer produces no "unpaired"
trimmed output for any sample — paired it emits exactly the R1/R2 trimmed
outputs, both registered for cleanup — while trimmomatic on a paired sample
produces exactly four outputs (R1, R1-unpaired, R2, R2-unpaired), all four
registered for cleanup; on a single-end sample each variant produces exactly
one trimmed output. -/
theorem chipseq_trim_outputs (a : Args) (p : Project) (s t : Sample)
    (hp : s.paired = true) (hq : t.paired = false) :
    chipseqTrim (Args.mk "skewer" a.peak_caller a.cpus a.quality a.maxinsert a.dry_run) p s =
      [Event.callLock
         (Cmd.skewer s.fastq1 (some s.fastq2) (pathJoin s.dirs.unmapped s.name)
           s.trimmed1 (some s.trimmed2) s.trimlog a.cpus p.adapters)
         (some s.trimmed1) none false,
       Event.cleanAdd s.trimmed1 true, Event.cleanAdd s.trimmed2 true] ∧
    chipseqTrim (Args.mk "trimmomatic" a.peak_caller a.cpus a.quality a.maxinsert a.dry_run) p s =
      [Event.callLock
         (Cmd.trimmomatic s.fastq1 (some s.fastq2) s.trimmed1 (some s.trimmed1Unpaired)
           (some s.trimmed2) (some s.trimmed2Unpaired) a.cpus p.adapters s.trimlog)
         (some s.trimmed1) none false,
       Event.cleanAdd s.trimmed1 true, Event.cleanAdd s.trimmed1Unpaired true,
       Event.cleanAdd s.trimmed2 true, Event.cleanAdd s.trimmed2Unpaired true] ∧
    chipseqTrim (Args.mk "skewer" a.peak_caller a.cpus a.quality a.maxinsert a.dry_run) p t =
      [Event.callLock
         (Cmd.skewer t.fastq (none) (pathJoin t.dirs.unmapped t.name)
           t.trimmed (none) t.trimlog a.cpus p.adapters)
         (some t.trimmed) none false,
       Event.cleanAdd t.trimmed true] ∧
    chipseqTrim (Args.mk "trimmomatic" a.peak_caller a.cpus a.quality a.maxinsert a.dry_run) p t =
      [Event.callLock
         (Cmd.trimmomatic t.fastq (none) t.trimmed (none) (none) (none)
           a.cpus p.adapters t.trimlog)
         (some t.trimmed) none false,
       Event.cleanAdd t.trimmed true] := by
  refine ⟨?_, ?_, ?_, ?_⟩ <;> unfold chipseqTrim <;> simp_all

/-- Evaluation of C8 at a concrete paired sample and a concrete single-end
sample. -/
theorem chipseq_trim_outputs_witness :
    sampleA.paired = true ∧ sampleE.paired = false ∧
    (chipseqTrim (Args.mk "skewer" argsA.peak_caller argsA.cpus argsA.quality argsA.maxinsert
         argsA.dry_run) projA sampleA =
       [Event.callLock
          (Cmd.skewer sampleA.fastq1 (some sampleA.fastq2)
            (pathJoin sampleA.dirs.unmapped sampleA.name)
            sampleA.trimmed1 (some sampleA.trimmed2) sampleA.trimlog argsA.cpus projA.adapters)
          (some sampleA.trimmed1) none false,
        Event.cleanAdd sampleA.trimmed1 true, Event.cleanAdd sampleA.trimmed2 true] ∧
     chipseqTrim (Args.mk "trimmomatic" argsA.peak_caller argsA.cpus argsA.quality
         argsA.maxinsert argsA.dry_run) projA sampleA =
       [Event.callLock
          (Cmd.trimmomatic sampleA.fastq1 (some sampleA.fastq2) sampleA.trimmed1
            (some sampleA.trimmed1Unpaired) (some sampleA.trimmed2)
            (some sampleA.trimmed2Unpaired) argsA.cpus projA.adapters sampleA.trimlog)
          (some sampleA.trimmed1) none false,
        Event.cleanAdd sampleA.trimmed1 true, Event.cleanAdd sampleA.trimmed1Unpaired true,
        Event.cleanAdd sampleA.trimmed2 true, Event.cleanAdd sampleA.trimmed2Unpaired true] ∧
     chipseqTrim (Args.mk "skewer" argsA.peak_caller argsA.cpus argsA.quality argsA.maxinsert
         argsA.dry_run) projA sampleE =
       [Event.callLock
          (Cmd.skewer sampleE.fastq (none) (pathJoin sampleE.dirs.unmapped sampleE.name)
            sampleE.trimmed (none) sampleE.trimlog argsA.cpus projA.adapters)
          (some sampleE.trimmed) none false,
        Event.cleanAdd sampleE.trimmed true] ∧
     chipseqTrim (Args.mk "trimmomatic" argsA.peak_caller argsA.cpus argsA.quality
         argsA.maxinsert argsA.dry_run) projA sampleE =
       [Event.callLock
          (Cmd.trimmomatic sampleE.fastq (none) sampleE.trimmed (none) (none) (none)
            argsA.cpus projA.adapters sampleE.trimlog)
          (some sampleE.trimmed) none false,
        Event.cleanAdd sampleE.trimmed true]) :=
  ⟨rfl, rfl, chipseq_trim_outputs argsA projA sampleA sampleE rfl rfl⟩

/-- Claim C9 (evaluating the code): the track-hub append runs under a lock
named `sample.name + "addToTrackHub"`, so two samples of the same genome
append to the same per-genome hub file under distinct locks — the lock is
keyed to the sample, not to the (genome, hub-file) pair. -/
theorem chipseq_hub_lock_keyed_by_sample :
    sampleA.genome = sampleB.genome ∧
    hubAppendLocks (chipseqProcess argsA projA sampleA).events =
      [(some "sAaddToTrackHub", "html/trackHub_hg19.txt")] ∧
    hubAppendLocks (chipseqProcess argsA projA sampleB).events =
      [(some "sBaddToTrackHub", "html/trackHub_hg19.txt")] ∧
    (some "sAaddToTrackHub" : Option String) ≠ some "sBaddToTrackHub" :=
  ⟨rfl, by decide, by decide, by decide⟩

theorem chipseqPre_not_stopPipeline (a : Args) (p : Project) (s : Sample) :
    Event.stopPipeline ∉ chipseqPre a p s := by
  unfold chipseqPre mergeEvents fastqcEvents bam2fastqEvents chipseqTrim chipseqMapEvents
    chipseqFilterEvents shiftEvents indexEvents trackEvents coverageEvents qcEvents
  cases hb : s.unmappedBam <;>
  by_cases hp : (afterMergeSample s).paired = true <;>
  by_cases ht : a.trimmer = "trimmomatic" <;>
  by_cases hs : a.trimmer = "skewer" <;>
  by_cases hg : (afterMergeSample s).tagmented = true <;>
  simp_all

theorem chipseqPre_mem_cleanAdd_mapped (a : Args) (p : Project) (s : Sample) :
    Event.cleanAdd s.mapped true ∈ chipseqPre a p s := by
  unfold chipseqPre chipseqMapEvents afterMergeSample
  cases hb : s.unmappedBam <;> simp_all

/-- Claim C10: for a sample with no `ctrl` association, `process` returns from
the early-exit branch without reaching the finalize call — no `stopPipeline`
event occurs, so deferred cleanup of the conditional artifacts registered
earlier (e.g. the mapped intermediate, whose registration is in the trace) is
never triggered — while `main` still deletes the serialized run-input pickle
exactly when `dry_run` is false. -/
theorem chipseq_no_ctrl_skips_finalize (a : Args) (p : Project) (s : Sample)
    (h : s.ctrl = none) :
    Event.stopPipeline ∉ (chipseqProcess a p s).events ∧
    Event.cleanAdd s.mapped true ∈ (chipseqProcess a p s).events ∧
    (chipseqMain a p s).2 = !a.dry_run := by
  have hc : (afterMergeSample s).ctrl = none := by rw [afterMergeSample_ctrl, h]
  refine ⟨?_, ?_, ?_⟩
  · simp only [chipseqProcess, hc]
    exact chipseqPre_not_stopPipeline a p s
  · simp only [chipseqProcess, hc]
    exact chipseqPre_mem_cleanAdd_mapped a p s
  · unfold chipseqMain
    simp only [chipseqProcess, hc]

/-- Evaluation of C10 at a concrete control-less sample with `dry_run=false`. -/
theorem chipseq_no_ctrl_skips_finalize_witness :
    sampleA.ctrl = none ∧ argsA.dry_run = false ∧
    (Event.stopPipeline ∉ (chipseqProcess argsA projA sampleA).events ∧
     Event.cleanAdd sampleA.mapped true ∈ (chipseqProcess argsA projA sampleA).events ∧
     (chipseqMain argsA projA sampleA).2 = !argsA.dry_run) :=
  ⟨rfl, rfl, chipseq_no_ctrl_skips_finalize argsA projA sampleA rfl⟩
